import Mathlib

/-!
Shallow embedding of the greybus ES1/ES2 USB bridge host driver
(`es2.c`): the outbound urb pool (`next_free_urb` / `free_urb`), the
send path (`buffer_send`), cancellation (`buffer_cancel` with the
`conceal_urb` / `reveal_urb` cookie encoding), terminal status
classification (`check_urb_status`), the inbound completion callbacks
(`cport_in_callback`, `svc_in_callback`) and the endpoint-discovery
check of `ap_probe`.

Pool bookkeeping is modelled as the list of the `cport_out_urb_busy`
flags; urbs are identified either by their pool index or as
dynamically allocated.  Kernel effects that are mere observations
(which urb was submitted, whether `greybus_data_rcvd` fired, whether
the receive urb was resubmitted) are returned as explicit fields of
result structures.  Errno values are the standard Linux ones used by
the source.
-/

/-- Linux errno values used by es2.c (asm-generic). -/
def EINVAL : Int := 22

def ENOMEM : Int := 12

def EAGAIN : Int := 11

def ENOENT : Int := 2

def EPROTO : Int := 71

def EOVERFLOW : Int := 75

def EILSEQ : Int := 84

def ECONNRESET : Int := 104

def ESHUTDOWN : Int := 108

/-- `INT_MAX` of the platform (32-bit int). -/
def INT_MAX : Nat := 2 ^ 31 - 1

/-- `U8_MAX`. -/
def U8_MAX : Nat := 255

/-- Modelled from the spec: `CPORT_ID_BAD`, the reserved "inbound-only"
sentinel channel id, is defined in the repository header `greybus.h`,
which is not part of the provided sources.  It is the all-ones u16
value, outside the representable byte range. -/
def CPORT_ID_BAD : Nat := 65535

/-- `NUM_CPORT_OUT_URB`: capacity of the outbound urb pool. -/
def NUM_CPORT_OUT_URB : Nat := 8

/-- `NUM_CPORT_IN_URB`: number of perpetually resubmitted receive urbs. -/
def NUM_CPORT_IN_URB : Nat := 4

/-- A urb handed out by `next_free_urb`: either the pool urb at index
`i` of `cport_out_urb`, or a dynamically allocated one
(`usb_alloc_urb`). -/
inductive Urb where
  | pool (i : Nat)
  | dyn (id : Nat)
deriving DecidableEq

/-- The scan loop of `next_free_urb`: index of the first entry of
`cport_out_urb_busy` that is `false`, scanning from index 0. -/
def findFreeIdx : List Bool → Option Nat
  | [] => none
  | false :: _ => some 0
  | true :: t => (findFreeIdx t).map (· + 1)

/-- `next_free_urb` (es2.c:156-183).  Input: the
`cport_out_urb_busy` flags and whether a dynamic `usb_alloc_urb`
would succeed.  Output: the urb handed out (if any), the updated busy
flags, and whether the dynamic-allocation fallback was taken. -/
def next_free_urb (busy : List Bool) (allocOk : Bool) :
    Option Urb × List Bool × Bool :=
  match findFreeIdx busy with
  | some i => (some (Urb.pool i), busy.set i true, false)
  | none => (if allocOk then some (Urb.dyn 0) else none, busy, true)

/-- `free_urb` (es2.c:185-205): a pool urb has its busy flag cleared;
a dynamically allocated urb is `usb_free_urb`d, leaving the flags
unchanged. -/
def free_urb (busy : List Bool) (urb : Urb) : List Bool :=
  match urb with
  | .pool i => busy.set i false
  | .dyn _ => busy

/-- Result of `buffer_send`: the returned cookie value (`ok`, carrying
the urb and the framed transfer buffer) or an `ERR_PTR` code. -/
inductive SendResult where
  | ok (urb : Urb) (frame : List Nat)
  | err (e : Int)
deriving DecidableEq

/-- Observable outcome of one `buffer_send` call: return value, the
`cport_out_urb_busy` flags after the call, whether the
dynamic-allocation fallback of `next_free_urb` ran, and the transfer
(urb, bytes) submitted to `usb_submit_urb`, if any that succeeded. -/
structure SendOutcome where
  result : SendResult
  busy : List Bool
  dynAllocated : Bool
  submitted : Option (Urb × List Nat)
deriving DecidableEq

/-- `buffer_send` (es2.c:212-266).  `buffer = none` models a NULL
buffer pointer; `some payload` models a buffer whose user-visible
bytes are `payload` (with `buffer_size = payload.length`) preceded by
at least one headroom byte.  `submitRet` is the value
`usb_submit_urb` would return.  The framed transfer buffer is the
channel-id byte written into the headroom byte followed by the
payload, of length `buffer_size + 1`. -/
def buffer_send (busy : List Bool) (cport_id : Nat)
    (buffer : Option (List Nat)) (allocOk : Bool) (submitRet : Int) :
    SendOutcome :=
  match buffer with
  | none =>
    { result := .err (-EINVAL), busy := busy, dynAllocated := false,
      submitted := none }
  | some payload =>
    if payload.length > INT_MAX then
      { result := .err (-EINVAL), busy := busy, dynAllocated := false,
        submitted := none }
    else if cport_id = CPORT_ID_BAD then
      { result := .err (-EINVAL), busy := busy, dynAllocated := false,
        submitted := none }
    else if cport_id > U8_MAX then
      { result := .err (-EINVAL), busy := busy, dynAllocated := false,
        submitted := none }
    else
      match next_free_urb busy allocOk with
      | (none, busy2, dyn) =>
        { result := .err (-ENOMEM), busy := busy2, dynAllocated := dyn,
          submitted := none }
      | (some urb, busy2, dyn) =>
        if submitRet = 0 then
          { result := .ok urb (cport_id % 256 :: payload), busy := busy2,
            dynAllocated := dyn,
            submitted := some (urb, cport_id % 256 :: payload) }
        else
          { result := .err submitRet, busy := free_urb busy2 urb,
            dynAllocated := dyn, submitted := none }

/-- `conceal_urb` (es2.c:24): XOR of the urb pointer with 0xbad. -/
def conceal_urb (p : Nat) : Nat := p ^^^ 0xbad

/-- `reveal_urb` (es2.c:25): XOR of the cookie with 0xbad. -/
def reveal_urb (cookie : Nat) : Nat := cookie ^^^ 0xbad

/-- `buffer_cancel` (es2.c:274-284): a NULL cookie (0) is ignored;
otherwise `usb_kill_urb` is called on the revealed urb pointer.  The
return value records which urb (if any) was killed. -/
def buffer_cancel (cookie : Nat) : Option Nat :=
  if cookie = 0 then none else some (reveal_urb cookie)

/-- `check_urb_status` (es2.c:294-317): 0 passes through; the
`-EOVERFLOW` case logs and falls through to the `-ECONNRESET` /
`-ENOENT` / `-ESHUTDOWN` / `-EILSEQ` / `-EPROTO` group, all of which
return the status unchanged ("device is gone, stop sending"); any
other status logs "unknown status" and returns `-EAGAIN`. -/
def check_urb_status (status : Int) : Int :=
  if status = 0 then 0
  else if status = -EOVERFLOW ∨ status = -ECONNRESET ∨ status = -ENOENT ∨
      status = -ESHUTDOWN ∨ status = -EILSEQ ∨ status = -EPROTO then status
  else -EAGAIN

/-- Observable outcome of `cport_in_callback`: the
`greybus_data_rcvd` call (channel id and payload), if any, and
whether the urb was resubmitted via `usb_submit_urb`. -/
structure CportInResult where
  rcvd : Option (Nat × List Nat)
  resubmitted : Bool
deriving DecidableEq

/-- `cport_in_callback` (es2.c:392-431).  `buf` is the first
`actual_length` bytes of the transfer buffer.  A nonzero classified
status is dropped, resubmitting only for `-EAGAIN` and `-EPROTO`; a
zero-length buffer is dropped and resubmitted; otherwise the first
byte is the cport id, the rest the payload handed to
`greybus_data_rcvd`, and the urb is resubmitted. -/
def cport_in_callback (status : Int) (buf : List Nat) : CportInResult :=
  let s := check_urb_status status
  if s ≠ 0 then
    if s = -EAGAIN ∨ s = -EPROTO then ⟨none, true⟩
    else ⟨none, false⟩
  else
    match buf with
    | [] => ⟨none, true⟩
    | c :: rest => ⟨some (c, rest), true⟩

/-- Observable outcome of `svc_in_callback`: the `greybus_svc_in`
call (message bytes), if any, and whether the urb was resubmitted. -/
structure SvcInResult where
  svcRcvd : Option (List Nat)
  resubmitted : Bool
deriving DecidableEq

/-- `svc_in_callback` (es2.c:366-390): same status handling as
`cport_in_callback`; on success the whole buffer is delivered to
`greybus_svc_in` and the urb resubmitted. -/
def svc_in_callback (status : Int) (buf : List Nat) : SvcInResult :=
  let s := check_urb_status status
  if s ≠ 0 then
    if s = -EAGAIN ∨ s = -EPROTO then ⟨none, true⟩
    else ⟨none, false⟩
  else ⟨some buf, true⟩

/-- One pool operation: a send acquiring a urb via `next_free_urb`
(with the dynamic fallback available), or a completion releasing its
urb via `free_urb`. -/
inductive PoolOp where
  | acquire
  | release (u : Urb)
deriving DecidableEq

/-- Effect of one pool operation on the busy flags, paired with
whether the dynamic-allocation fallback ran. -/
def applyOp (busy : List Bool) : PoolOp → List Bool × Bool
  | .acquire => ((next_free_urb busy true).2.1, (next_free_urb busy true).2.2)
  | .release u => (free_urb busy u, false)

/-- Run a sequence of pool operations; the boolean records whether any
dynamic overflow allocation happened along the way. -/
def runTrace (busy : List Bool) : List PoolOp → List Bool × Bool
  | [] => (busy, false)
  | op :: rest =>
    ((runTrace (applyOp busy op).1 rest).1,
      (applyOp busy op).2 || (runTrace (applyOp busy op).1 rest).2)

/-- A trace whose concurrent in-flight count never exceeds the pool
capacity: before every acquire, fewer than `NUM_CPORT_OUT_URB` pool
slots are busy. -/
def admissibleB (busy : List Bool) : List PoolOp → Bool
  | [] => true
  | op :: rest =>
    (match op with
      | .acquire => decide (busy.count true < NUM_CPORT_OUT_URB)
      | .release _ => true) && admissibleB (applyOp busy op).1 rest

/-- Endpoint types distinguished by the discovery loop of `ap_probe`. -/
inductive EpType where
  | intIn
  | bulkIn
  | bulkOut
  | other
deriving DecidableEq

/-- The three found-flags of the `ap_probe` discovery loop. -/
structure EpScan where
  int_in_found : Bool
  bulk_in_found : Bool
  bulk_out_found : Bool
deriving DecidableEq

/-- One iteration of the `ap_probe` endpoint loop (es2.c:523-541). -/
def scanStep (s : EpScan) (e : EpType) : EpScan :=
  match e with
  | .intIn => { s with int_in_found := true }
  | .bulkIn => { s with bulk_in_found := true }
  | .bulkOut => { s with bulk_out_found := true }
  | .other => s

/-- The `ap_probe` endpoint loop over the interface's endpoint
descriptors, starting from the given flags. -/
def scanEndpoints (eps : List EpType) (s : EpScan) : EpScan :=
  match eps with
  | [] => s
  | e :: rest => scanEndpoints rest (scanStep s e)

/-- The endpoint check of `ap_probe` (es2.c:542-547): all three
found-flags must be set, else `goto error` tears everything down. -/
def endpoint_check (eps : List EpType) : Bool :=
  let s := scanEndpoints eps ⟨false, false, false⟩
  s.int_in_found && s.bulk_in_found && s.bulk_out_found

/-- The abort behaviour of `ap_probe` at the endpoint check: on a
failed check it jumps to the error label (which calls
`ap_disconnect`) and returns the current `retval`, still `-ENOMEM`
at that point. -/
def ap_probe_endpoint_stage (eps : List EpType) : Except Int Unit :=
  if endpoint_check eps then .ok () else .error (-ENOMEM)

/-! ### Helper lemmas about the pool scan -/

theorem findFreeIdx_eq_some (l : List Bool) (i : Nat)
    (h : findFreeIdx l = some i) : l[i]? = some false := by
  induction l generalizing i with
  | nil => simp [findFreeIdx] at h
  | cons b t ih =>
    cases b with
    | false =>
      simp [findFreeIdx] at h
      subst h
      simp
    | true =>
      simp [findFreeIdx] at h
      obtain ⟨j, hj, hji⟩ := h
      subst hji
      simpa using ih j hj

theorem findFreeIdx_isSome_iff (l : List Bool) :
    (findFreeIdx l).isSome = true ↔ false ∈ l := by
  induction l with
  | nil => simp [findFreeIdx]
  | cons b t ih =>
    cases b <;> simp [findFreeIdx, ih]

theorem findFreeIdx_ne_busy (l : List Bool) (i : Nat)
    (h : l[i]? = some true) : findFreeIdx l ≠ some i := by
  intro hc
  have h2 := findFreeIdx_eq_some l i hc
  rw [h] at h2
  simp at h2

theorem mem_false_of_count_lt (l : List Bool)
    (h : l.count true < l.length) : false ∈ l := by
  by_contra hn
  have hall : ∀ b ∈ l, true = b := by
    intro b hb
    cases b with
    | false => exact absurd hb hn
    | true => rfl
  have := List.count_eq_length.mpr hall
  omega

theorem set_eq_self_of_getElem? (l : List Bool) (i : Nat) (b : Bool)
    (h : l[i]? = some b) : l.set i b = l := by
  induction l generalizing i with
  | nil => simp at h
  | cons a t ih =>
    cases i with
    | zero =>
      simp at h
      simp [h]
    | succ j =>
      simp at h
      simp [ih j h]

theorem findFreeIdx_lt_length (l : List Bool) (i : Nat)
    (h : findFreeIdx l = some i) : i < l.length := by
  have h2 := findFreeIdx_eq_some l i h
  by_contra hn
  rw [List.getElem?_eq_none (by omega)] at h2
  simp at h2

/-! ### Claim theorems -/

/-- C9: for every inbound completion with Success status and zero
actual length, `cport_in_callback` does not invoke
`greybus_data_rcvd` and the receive urb is resubmitted. -/
theorem zero_length_frame_dropped (s : Int)
    (hs : check_urb_status s = 0) :
    cport_in_callback s [] = ⟨none, true⟩ := by
  simp [cport_in_callback, hs]

theorem zero_length_frame_dropped_witness :
    check_urb_status 0 = 0 ∧ cport_in_callback 0 [] = ⟨none, true⟩ :=
  ⟨rfl, zero_length_frame_dropped 0 rfl⟩

/-- C8: `buffer_cancel` ignores a null cookie, the XOR cookie
encoding is its own inverse, and for any urb pointer other than the
mask value itself, cancelling the cookie of a send kills exactly that
urb. -/
theorem cancel_cookie_roundtrip :
    buffer_cancel 0 = none
    ∧ (∀ u : Nat, reveal_urb (conceal_urb u) = u)
    ∧ (∀ u : Nat, u ≠ 0xbad → buffer_cancel (conceal_urb u) = some u) := by
  refine ⟨rfl, ?_, ?_⟩
  · intro u
    simp [reveal_urb, conceal_urb, Nat.xor_cancel_right]
  · intro u hu
    have hz : conceal_urb u ≠ 0 := by
      simp only [conceal_urb, ne_eq, Nat.xor_eq_zero]
      exact hu
    rw [buffer_cancel, if_neg hz]
    simp [reveal_urb, conceal_urb, Nat.xor_cancel_right]

theorem cancel_cookie_roundtrip_witness :
    (5 : Nat) ≠ 0xbad ∧ buffer_cancel (conceal_urb 5) = some 5 :=
  ⟨by decide, cancel_cookie_roundtrip.2.2 5 (by decide)⟩

/-- C4 counterexample: `-EPROTO` is in the status group that
`check_urb_status` returns unchanged under the "device is gone, stop
sending" comment, yet both receive callbacks treat it like `-EAGAIN`
and resubmit the urb, contradicting the claim that a fatal
classification is never resubmitted. -/
theorem fatal_eproto_resubmitted_counterexample :
    check_urb_status (-EPROTO) = -EPROTO
    ∧ (cport_in_callback (-EPROTO) []).resubmitted = true
    ∧ (svc_in_callback (-EPROTO) []).resubmitted = true := by
  decide

/-- C4 amended: for every completion whose status is in the
classifier's device-gone group other than `-EPROTO` (that is
`-EOVERFLOW`, `-ECONNRESET`, `-ENOENT`, `-ESHUTDOWN`, `-EILSEQ`),
both receive callbacks return without forwarding and without
resubmitting; `-EPROTO`, although in that group, is exempted
alongside `-EAGAIN` and is resubmitted. -/
theorem fatal_no_resubmit_except_eproto (s : Int) (buf : List Nat)
    (hs : s = -EOVERFLOW ∨ s = -ECONNRESET ∨ s = -ENOENT ∨
      s = -ESHUTDOWN ∨ s = -EILSEQ) :
    cport_in_callback s buf = ⟨none, false⟩
    ∧ svc_in_callback s buf = ⟨none, false⟩
    ∧ (cport_in_callback (-EPROTO) buf).resubmitted = true
    ∧ (svc_in_callback (-EPROTO) buf).resubmitted = true := by
  rcases hs with h | h | h | h | h <;> subst h <;>
    refine ⟨?_, ?_, ?_, ?_⟩ <;>
    simp [cport_in_callback, svc_in_callback, check_urb_status,
      EOVERFLOW, ECONNRESET, ENOENT, ESHUTDOWN, EILSEQ, EPROTO, EAGAIN]

theorem fatal_no_resubmit_witness :
    cport_in_callback (-ECONNRESET) [4] = ⟨none, false⟩
    ∧ svc_in_callback (-ECONNRESET) [4] = ⟨none, false⟩ :=
  ⟨(fatal_no_resubmit_except_eproto (-ECONNRESET) [4] (by decide)).1,
   (fatal_no_resubmit_except_eproto (-ECONNRESET) [4] (by decide)).2.1⟩

/-- C5 counterexample: `-EOVERFLOW` is not mapped to the transient
code `-EAGAIN`; it falls through to the device-gone group and is
returned unchanged, and on the receive path an `-EOVERFLOW`
completion is dropped without resubmission rather than resubmitted. -/
theorem overflow_not_transient_counterexample :
    check_urb_status (-EOVERFLOW) = -EOVERFLOW
    ∧ check_urb_status (-EOVERFLOW) ≠ -EAGAIN
    ∧ (cport_in_callback (-EOVERFLOW) [1, 2]).resubmitted = false
    ∧ (cport_in_callback (-EOVERFLOW) [1, 2]).rcvd = none := by
  decide

/-- C5 amended: `check_urb_status` maps 0 to 0 (Success); maps
`-EOVERFLOW`, after logging, to itself by falling through into the
device-gone group (so receive paths drop such a completion without
resubmitting instead of treating it as transient); maps
`-ECONNRESET`, `-ENOENT`, `-ESHUTDOWN`, `-EILSEQ` and `-EPROTO` to
themselves (fatal, device gone); and maps every other status to
`-EAGAIN` with a diagnostic log. -/
theorem check_urb_status_classification :
    check_urb_status 0 = 0
    ∧ check_urb_status (-EOVERFLOW) = -EOVERFLOW
    ∧ (∀ buf, (cport_in_callback (-EOVERFLOW) buf).resubmitted = false)
    ∧ (∀ s : Int, s = -ECONNRESET ∨ s = -ENOENT ∨ s = -ESHUTDOWN ∨
        s = -EILSEQ ∨ s = -EPROTO → check_urb_status s = s)
    ∧ (∀ s : Int, s ≠ 0 → s ≠ -EOVERFLOW → s ≠ -ECONNRESET → s ≠ -ENOENT →
        s ≠ -ESHUTDOWN → s ≠ -EILSEQ → s ≠ -EPROTO →
        check_urb_status s = -EAGAIN) := by
  refine ⟨rfl, by decide, ?_, ?_, ?_⟩
  · intro buf
    simp [cport_in_callback, check_urb_status, EOVERFLOW, ECONNRESET,
      ENOENT, ESHUTDOWN, EILSEQ, EPROTO, EAGAIN]
  · intro s hs
    rcases hs with h | h | h | h | h <;> subst h <;> decide
  · intro s h0 h1 h2 h3 h4 h5 h6
    simp [check_urb_status, h0, h1, h2, h3, h4, h5, h6]

theorem check_urb_status_classification_witness :
    check_urb_status (-ECONNRESET) = -ECONNRESET
    ∧ check_urb_status (-5) = -EAGAIN :=
  ⟨check_urb_status_classification.2.2.2.1 (-ECONNRESET) (Or.inl rfl),
   check_urb_status_classification.2.2.2.2 (-5) (by decide) (by decide)
     (by decide) (by decide) (by decide) (by decide) (by decide)⟩

/-- C1: framing round-trip.  On the send side, every accepted call
submits the transfer buffer `cport_id :: payload` (the channel id
written into the single headroom byte before the buffer) of length
`buffer_size + 1`; on the receive side, a successful completion whose
buffer is the byte `c'` followed by `p'` hands `greybus_data_rcvd`
channel id `c'` and payload `p'` of length `total - 1`, and
resubmits. -/
theorem framing_round_trip (busy : List Bool) (c : Nat) (p : List Nat)
    (allocOk : Bool)
    (hc1 : c ≠ CPORT_ID_BAD) (hc2 : c ≤ U8_MAX) (hp : p.length ≤ INT_MAX)
    (hacq : false ∈ busy ∨ allocOk = true)
    (c' : Nat) (p' : List Nat) (hc' : c' < 256) :
    (∃ u, (buffer_send busy c (some p) allocOk 0).result = .ok u (c :: p)
      ∧ (buffer_send busy c (some p) allocOk 0).submitted = some (u, c :: p)
      ∧ (c :: p).length = p.length + 1)
    ∧ cport_in_callback 0 (c' :: p') = ⟨some (c', p'), true⟩
    ∧ p'.length = (c' :: p').length - 1 := by
  have h255 : c ≤ 255 := hc2
  have hmod : c % 256 = c := Nat.mod_eq_of_lt (by omega)
  have hcv : c' < 256 := hc'
  refine ⟨?_, ?_, ?_⟩
  · cases hf : findFreeIdx busy with
    | some i =>
      refine ⟨Urb.pool i, ?_, ?_, rfl⟩ <;>
        simp [buffer_send, next_free_urb, hf, Nat.not_lt.mpr hp, hc1,
          Nat.not_lt.mpr hc2, hmod]
    | none =>
      have ha : allocOk = true := by
        rcases hacq with hm | ha
        · have hi := (findFreeIdx_isSome_iff busy).mpr hm
          rw [hf] at hi
          simp at hi
        · exact ha
      subst ha
      refine ⟨Urb.dyn 0, ?_, ?_, rfl⟩ <;>
        simp [buffer_send, next_free_urb, hf, Nat.not_lt.mpr hp, hc1,
          Nat.not_lt.mpr hc2, hmod]
  · simp [cport_in_callback, check_urb_status]
  · simp

theorem framing_round_trip_witness :
    (∃ u, (buffer_send [false] 7 (some [1, 2]) false 0).result = .ok u (7 :: [1, 2])
      ∧ (buffer_send [false] 7 (some [1, 2]) false 0).submitted = some (u, 7 :: [1, 2])
      ∧ (7 :: [1, 2]).length = [1, 2].length + 1)
    ∧ cport_in_callback 0 (9 :: [3]) = ⟨some (9, [3]), true⟩
    ∧ [3].length = (9 :: [3]).length - 1 :=
  framing_round_trip [false] 7 [1, 2] false (by decide) (by decide)
    (by decide) (Or.inl (by decide)) 9 [3] (by decide)

/-- C6: `buffer_send` rejects a null buffer, an oversize buffer, the
`CPORT_ID_BAD` sentinel and any channel id above 255 with
`ERR_PTR(-EINVAL)`, leaving the pool busy flags unchanged, performing
no dynamic allocation and submitting no I/O. -/
theorem buffer_send_invalid_argument (busy : List Bool) (c : Nat)
    (buffer : Option (List Nat)) (allocOk : Bool) (r : Int)
    (h : buffer = none ∨ (∃ p, buffer = some p ∧ p.length > INT_MAX) ∨
      c = CPORT_ID_BAD ∨ c > U8_MAX) :
    buffer_send busy c buffer allocOk r =
      { result := .err (-EINVAL), busy := busy, dynAllocated := false,
        submitted := none } := by
  rcases h with h | ⟨p, hp, hlen⟩ | h | h
  · subst h
    rfl
  · subst hp
    simp [buffer_send, hlen]
  · cases buffer with
    | none => rfl
    | some p =>
      by_cases hlen : p.length > INT_MAX
      · simp [buffer_send, hlen]
      · simp [buffer_send, hlen, h]
  · cases buffer with
    | none => rfl
    | some p =>
      by_cases hlen : p.length > INT_MAX
      · simp [buffer_send, hlen]
      · by_cases hbad : c = CPORT_ID_BAD
        · simp [buffer_send, hlen, hbad]
        · simp [buffer_send, hlen, hbad, h]

theorem buffer_send_invalid_argument_witness :
    buffer_send [false, true] CPORT_ID_BAD (some [1]) true 0 =
      { result := .err (-EINVAL), busy := [false, true],
        dynAllocated := false, submitted := none } :=
  buffer_send_invalid_argument [false, true] CPORT_ID_BAD (some [1]) true 0
    (Or.inr (Or.inr (Or.inl rfl)))

/-- C7: if `usb_submit_urb` fails, `buffer_send` releases the
acquired urb through `free_urb` and returns the submission error as
an `ERR_PTR`, leaving the busy flags exactly as before the call and
submitting nothing. -/
theorem submission_failure_atomicity (busy : List Bool) (c : Nat)
    (p : List Nat) (allocOk : Bool) (r : Int)
    (hc1 : c ≠ CPORT_ID_BAD) (hc2 : c ≤ U8_MAX) (hp : p.length ≤ INT_MAX)
    (hr : r ≠ 0) (hacq : false ∈ busy ∨ allocOk = true) :
    (buffer_send busy c (some p) allocOk r).result = .err r
    ∧ (buffer_send busy c (some p) allocOk r).busy = busy
    ∧ (buffer_send busy c (some p) allocOk r).submitted = none := by
  cases hf : findFreeIdx busy with
  | some i =>
    have hgi := findFreeIdx_eq_some busy i hf
    have hset : (busy.set i true).set i false = busy := by
      rw [List.set_set]
      exact set_eq_self_of_getElem? busy i false hgi
    refine ⟨?_, ?_, ?_⟩ <;>
      simp [buffer_send, next_free_urb, hf, free_urb, Nat.not_lt.mpr hp,
        hc1, Nat.not_lt.mpr hc2, hr, hset]
  | none =>
    have ha : allocOk = true := by
      rcases hacq with hm | ha
      · have hi := (findFreeIdx_isSome_iff busy).mpr hm
        rw [hf] at hi
        simp at hi
      · exact ha
    subst ha
    refine ⟨?_, ?_, ?_⟩ <;>
      simp [buffer_send, next_free_urb, hf, free_urb, Nat.not_lt.mpr hp,
        hc1, Nat.not_lt.mpr hc2, hr]

theorem submission_failure_atomicity_witness :
    (buffer_send [false, true] 1 (some [9]) false (-19)).result = .err (-19)
    ∧ (buffer_send [false, true] 1 (some [9]) false (-19)).busy = [false, true] :=
  ⟨(submission_failure_atomicity [false, true] 1 [9] false (-19) (by decide)
      (by decide) (by decide) (by decide) (Or.inl (by decide))).1,
   (submission_failure_atomicity [false, true] 1 [9] false (-19) (by decide)
      (by decide) (by decide) (by decide) (Or.inl (by decide))).2.1⟩

/-! ### Traces of pool acquire/release operations -/

theorem applyOp_no_dyn_of_count_lt (busy : List Bool) (op : PoolOp)
    (hlen : busy.length = NUM_CPORT_OUT_URB)
    (hcnt : op = PoolOp.acquire → busy.count true < NUM_CPORT_OUT_URB) :
    (applyOp busy op).2 = false
    ∧ (applyOp busy op).1.length = NUM_CPORT_OUT_URB := by
  cases op with
  | acquire =>
    have hmem : false ∈ busy :=
      mem_false_of_count_lt busy (by rw [hlen]; exact hcnt rfl)
    have hsome := (findFreeIdx_isSome_iff busy).mpr hmem
    cases hf : findFreeIdx busy with
    | none =>
      rw [hf] at hsome
      simp at hsome
    | some i =>
      constructor
      · simp [applyOp, next_free_urb, hf]
      · simp [applyOp, next_free_urb, hf, hlen]
  | release u =>
    constructor
    · rfl
    · cases u <;> simp [applyOp, free_urb, hlen]

theorem runTrace_no_dyn (ops : List PoolOp) : ∀ busy : List Bool,
    busy.length = NUM_CPORT_OUT_URB → admissibleB busy ops = true →
    (runTrace busy ops).2 = false := by
  induction ops with
  | nil =>
    intro busy _ _
    rfl
  | cons op rest ih =>
    intro busy hlen hadm
    simp only [admissibleB, Bool.and_eq_true] at hadm
    obtain ⟨h1, h2⟩ := hadm
    have hcnt : op = PoolOp.acquire → busy.count true < NUM_CPORT_OUT_URB := by
      intro hop
      subst hop
      simpa using h1
    have hstep := applyOp_no_dyn_of_count_lt busy op hlen hcnt
    have hrest := ih (applyOp busy op).1 hstep.2 h2
    simp only [runTrace]
    rw [hstep.1, hrest]
    rfl

/-- C2: `next_free_urb` hands out a pool urb without dynamic
allocation exactly when some pool slot is free; `buffer_send` on
valid arguments (with a succeeding submission) returns `-ENOMEM`
exactly when the pool is exhausted and the dynamic allocation itself
fails; and along any acquire/release trace in which fewer than the 8
pool slots are busy before each acquire, no dynamic overflow
allocation ever occurs. -/
theorem pool_acquisition_dichotomy (busy : List Bool) (allocOk : Bool)
    (c : Nat) (p : List Nat) (ops : List PoolOp)
    (hlen : busy.length = NUM_CPORT_OUT_URB)
    (hc1 : c ≠ CPORT_ID_BAD) (hc2 : c ≤ U8_MAX) (hp : p.length ≤ INT_MAX)
    (hadm : admissibleB busy ops = true) :
    (((∃ i, (next_free_urb busy allocOk).1 = some (Urb.pool i)) ∧
        (next_free_urb busy allocOk).2.2 = false) ↔ false ∈ busy)
    ∧ ((buffer_send busy c (some p) allocOk 0).result = .err (-ENOMEM) ↔
        (false ∉ busy ∧ allocOk = false))
    ∧ (runTrace busy ops).2 = false := by
  refine ⟨?_, ?_, runTrace_no_dyn ops busy hlen hadm⟩
  · cases hf : findFreeIdx busy with
    | some i =>
      have hmem : false ∈ busy := by
        have := (findFreeIdx_isSome_iff busy).mp (by rw [hf]; rfl)
        exact this
      simp [next_free_urb, hf, hmem]
    | none =>
      have hmem : false ∉ busy := by
        intro hm
        have hi := (findFreeIdx_isSome_iff busy).mpr hm
        rw [hf] at hi
        simp at hi
      simp [next_free_urb, hf, hmem]
  · cases hf : findFreeIdx busy with
    | some i =>
      have hmem : false ∈ busy :=
        (findFreeIdx_isSome_iff busy).mp (by rw [hf]; rfl)
      simp [buffer_send, next_free_urb, hf, Nat.not_lt.mpr hp, hc1,
        Nat.not_lt.mpr hc2, hmem]
    | none =>
      have hmem : false ∉ busy := by
        intro hm
        have hi := (findFreeIdx_isSome_iff busy).mpr hm
        rw [hf] at hi
        simp at hi
      cases allocOk with
      | false =>
        simp [buffer_send, next_free_urb, hf, Nat.not_lt.mpr hp, hc1,
          Nat.not_lt.mpr hc2, hmem]
      | true =>
        simp [buffer_send, next_free_urb, hf, Nat.not_lt.mpr hp, hc1,
          Nat.not_lt.mpr hc2, hmem]

theorem pool_acquisition_dichotomy_witness :
    admissibleB [true, true, true, true, true, true, true, false]
      [PoolOp.acquire, PoolOp.release (Urb.pool 7), PoolOp.acquire] = true
    ∧ (runTrace [true, true, true, true, true, true, true, false]
      [PoolOp.acquire, PoolOp.release (Urb.pool 7), PoolOp.acquire]).2 = false :=
  ⟨by decide,
   (pool_acquisition_dichotomy [true, true, true, true, true, true, true, false]
      false 3 [7] [PoolOp.acquire, PoolOp.release (Urb.pool 7), PoolOp.acquire]
      (by decide) (by decide) (by decide) (by decide) (by decide)).2.2⟩

/-- C3: pool mutual exclusion.  `next_free_urb` hands out a pool urb
only when its busy flag is false, setting it true at the same time
(in the same locked section); a pool urb whose flag is already true
is never handed out again; `free_urb` clears the flag. -/
theorem pool_mutual_exclusion :
    (∀ (busy busy' : List Bool) (allocOk d : Bool) (i : Nat),
      next_free_urb busy allocOk = (some (Urb.pool i), busy', d) →
      busy[i]? = some false ∧ busy'[i]? = some true
        ∧ busy' = busy.set i true ∧ d = false)
    ∧ (∀ (busy : List Bool) (allocOk : Bool) (i : Nat),
      busy[i]? = some true →
      (next_free_urb busy allocOk).1 ≠ some (Urb.pool i))
    ∧ (∀ (busy : List Bool) (i : Nat),
      free_urb busy (Urb.pool i) = busy.set i false) := by
  refine ⟨?_, ?_, fun busy i => rfl⟩
  · intro busy busy' allocOk d i h
    cases hf : findFreeIdx busy with
    | none =>
      simp only [next_free_urb, hf] at h
      cases allocOk <;> simp at h
    | some j =>
      simp only [next_free_urb, hf, Prod.mk.injEq, Option.some.injEq,
        Urb.pool.injEq] at h
      obtain ⟨hji, hb', hd⟩ := h
      subst hji
      have hfree := findFreeIdx_eq_some busy j hf
      have hlt := findFreeIdx_lt_length busy j hf
      subst hb'
      exact ⟨hfree, List.getElem?_set_self hlt, rfl, hd.symm⟩
  · intro busy allocOk i hb
    cases hf : findFreeIdx busy with
    | none =>
      simp only [next_free_urb, hf]
      cases allocOk <;> simp
    | some j =>
      simp only [next_free_urb, hf]
      have hne := findFreeIdx_ne_busy busy i hb
      simp only [ne_eq, Option.some.injEq, Urb.pool.injEq]
      intro hji
      exact hne (by rw [hf, hji])

theorem pool_mutual_exclusion_witness :
    next_free_urb [true, false] false = (some (Urb.pool 1), [true, true], false)
    ∧ [true, false][1]? = some false
    ∧ [true, true][1]? = some true
    ∧ (next_free_urb [true, true] false).1 ≠ some (Urb.pool 1)
    ∧ free_urb [true, true] (Urb.pool 1) = [true, false] :=
  ⟨by decide,
   (pool_mutual_exclusion.1 [true, false] [true, true] false false 1 (by decide)).1,
   (pool_mutual_exclusion.1 [true, false] [true, true] false false 1 (by decide)).2.1,
   pool_mutual_exclusion.2.1 [true, true] false 1 (by decide),
   by rw [pool_mutual_exclusion.2.2 [true, true] 1]; rfl⟩

/-! ### Endpoint discovery -/

theorem scanEndpoints_found (eps : List EpType) : ∀ s : EpScan,
    ((scanEndpoints eps s).int_in_found = true ↔
      (s.int_in_found = true ∨ EpType.intIn ∈ eps))
    ∧ ((scanEndpoints eps s).bulk_in_found = true ↔
      (s.bulk_in_found = true ∨ EpType.bulkIn ∈ eps))
    ∧ ((scanEndpoints eps s).bulk_out_found = true ↔
      (s.bulk_out_found = true ∨ EpType.bulkOut ∈ eps)) := by
  induction eps with
  | nil =>
    intro s
    simp [scanEndpoints]
  | cons e rest ih =>
    intro s
    cases e <;> simp [scanEndpoints, scanStep, ih]

/-- C10 counterexample: an interface with two interrupt-in endpoints
(plus one bulk-in and one bulk-out) passes the endpoint check of
`ap_probe` and probe proceeds, although it does not provide exactly
one of each endpoint type, refuting "succeeds only if the interface
provides exactly one" of each. -/
theorem endpoint_check_duplicate_counterexample :
    endpoint_check [EpType.intIn, EpType.intIn, EpType.bulkIn,
      EpType.bulkOut] = true
    ∧ ap_probe_endpoint_stage [EpType.intIn, EpType.intIn, EpType.bulkIn,
      EpType.bulkOut] = .ok ()
    ∧ List.count EpType.intIn [EpType.intIn, EpType.intIn, EpType.bulkIn,
      EpType.bulkOut] = 2 := by
  refine ⟨rfl, rfl, rfl⟩

/-- C10 amended: the endpoint check of `ap_probe` passes exactly when
the interface provides at least one interrupt-in, at least one
bulk-in and at least one bulk-out endpoint (duplicates are accepted,
the last of each type winning; the control endpoint is endpoint 0 of
the device and is always present); if any of the three is missing,
the probe takes the error path, tearing down via `ap_disconnect` and
returning an error. -/
theorem endpoint_discovery_check (eps : List EpType) :
    (ap_probe_endpoint_stage eps = .ok () ↔
      (EpType.intIn ∈ eps ∧ EpType.bulkIn ∈ eps ∧ EpType.bulkOut ∈ eps))
    ∧ (¬(EpType.intIn ∈ eps ∧ EpType.bulkIn ∈ eps ∧ EpType.bulkOut ∈ eps) →
      ap_probe_endpoint_stage eps = .error (-ENOMEM)) := by
  have h := scanEndpoints_found eps ⟨false, false, false⟩
  have hc : endpoint_check eps = true ↔
      (EpType.intIn ∈ eps ∧ EpType.bulkIn ∈ eps ∧ EpType.bulkOut ∈ eps) := by
    simp only [endpoint_check, Bool.and_eq_true]
    rw [h.1, h.2.1, h.2.2]
    simp [and_assoc]
  have hstage : ap_probe_endpoint_stage eps = .ok () ↔
      endpoint_check eps = true := by
    unfold ap_probe_endpoint_stage
    by_cases hck : endpoint_check eps = true
    · simp [hck]
    · rw [if_neg hck]
      exact iff_of_false (fun habs => Except.noConfusion habs) hck
  refine ⟨hstage.trans hc, ?_⟩
  intro hmem
  have hne : ¬endpoint_check eps = true := fun ht => hmem (hc.mp ht)
  unfold ap_probe_endpoint_stage
  rw [if_neg hne]

theorem endpoint_discovery_check_witness :
    ¬(EpType.intIn ∈ [EpType.intIn] ∧ EpType.bulkIn ∈ [EpType.intIn] ∧
      EpType.bulkOut ∈ [EpType.intIn])
    ∧ ap_probe_endpoint_stage [EpType.intIn] = .error (-ENOMEM) :=
  ⟨by decide, (endpoint_discovery_check [EpType.intIn]).2 (by decide)⟩
